import Mathlib

/-!
Shallow embedding of the pixelflare-api notification endpoints.

The repository contains several near-duplicate serverless handlers:
* `src/unnamed/part_000`, first handler (lines 1-157): the primary JSON
  handler with HTML escaping (`esc`, `nl2br`), an optional reCAPTCHA gate,
  and per-kind templates.  Modelled below as `handlerA`.
* `src/api/notify.ts`, first handler (lines 1-54): a plain JSON handler
  with no escaping.  Modelled below as `notify1`.
* `src/unnamed/part_000`, third handler (lines 268-437): the content-type
  dispatching handler with `parseJsonBody` and multipart field collapsing.
  Modelled below as `handlerC`.
* `src/api/notify.ts`, second handler (lines 55-188): the multipart handler
  whose quote template renders `goals`; its goals line is `goalsLine` below.

Strings are modelled by Lean `String`; JavaScript values that may be a
string, an array of strings, or `undefined` are modelled by `JsVal`.
The external collaborators (SMTP transport, reCAPTCHA verification,
JSON.parse, formidable) are modelled as explicit parameters carrying
their outcome.  File attachments are not touched by any property below
and are left out of the model.
-/

/-- One character of the escaping regex in `esc`
(`src/unnamed/part_000` lines 8-15): `&`, `<`, `>`, `"`, `'` map to their
HTML entities, every other character is kept. -/
def escChar (c : Char) : List Char :=
  if c = '&' then "&amp;".data
  else if c = '<' then "&lt;".data
  else if c = '>' then "&gt;".data
  else if c = '"' then "&quot;".data
  else if c = '\'' then "&#39;".data
  else [c]

/-- Character-list form of `esc`: global replacement applied to each
character in order. -/
def escL : List Char → List Char
  | [] => []
  | c :: cs => escChar c ++ escL cs

/-- `esc` from `src/unnamed/part_000` lines 8-15 (the JS default argument
`s = ""` is handled at the call sites by `escO`). -/
def esc (s : String) : String := ⟨escL s.data⟩

/-- The `<br>` marker inserted by `nl2br`. -/
def brData : List Char := ['<', 'b', 'r', '>']

/-- Character-list form of `nl2br`: every newline becomes `<br>`. -/
def nl2brL : List Char → List Char
  | [] => []
  | c :: cs => (if c = '\n' then brData else [c]) ++ nl2brL cs

/-- `nl2br` from `src/unnamed/part_000` lines 17-18. -/
def nl2br (s : String) : String := ⟨nl2brL s.data⟩

/-- Contiguous-substring search, used to state "the output contains ...". -/
def hasSub (l pat : List Char) : Bool :=
  match l with
  | [] => pat.isEmpty
  | _ :: t => pat.isPrefixOf l || hasSub t pat

/-- Split a character list at newlines (`splitNl l` always has one more
entry than `l` has newlines). -/
def splitNl : List Char → List (List Char)
  | [] => [[]]
  | c :: cs =>
    if c = '\n' then [] :: splitNl cs
    else
      match splitNl cs with
      | [] => [[c]]
      | h :: t => (c :: h) :: t

/-- Join character-list segments with the `<br>` marker. -/
def joinBr : List (List Char) → List Char
  | [] => []
  | [l] => l
  | l :: h :: t => l ++ (brData ++ joinBr (h :: t))

/-- A JavaScript value as it occurs in a request body: `undefined`,
a string, or an array of strings. -/
inductive JsVal
  | undef
  | str (s : String)
  | arr (l : List String)
deriving DecidableEq, Repr

/-- JS truthiness of an optional string field (`undefined` and `""` are
falsy, every other string truthy). -/
def truthy : Option String → Bool
  | none => false
  | some s => !(s == "")

/-- JS `v || d` for an optional string field. -/
def orD : Option String → String → String
  | none, d => d
  | some s, d => if s == "" then d else s

/-- JS template interpolation of an optional string
(`undefined` prints as "undefined"). -/
def jsStr : Option String → String
  | none => "undefined"
  | some s => s

/-- `esc` applied to a possibly-undefined field: the JS default argument
`s = ""` makes `esc(undefined) = ""`. -/
def escO (v : Option String) : String := esc (v.getD "")

/-- The normalized request body, restricted to the fields the handlers
read.  Each field is an optional string except `goals`, which a JSON
client may send as an array (`src/unnamed/part_000` line 134). -/
structure Body where
  kind : Option String
  name : Option String
  fullName : Option String
  email : Option String
  phone : Option String
  company : Option String
  category : Option String
  service : Option String
  budget : Option String
  timeline : Option String
  brief : Option String
  message : Option String
  references : Option String
  submittedAt : Option String
  recaptchaToken : Option String
  goals : JsVal
deriving DecidableEq, Repr

/-- A body with every field absent. -/
def emptyBody : Body :=
  { kind := none, name := none, fullName := none, email := none,
    phone := none, company := none, category := none, service := none,
    budget := none, timeline := none, brief := none, message := none,
    references := none, submittedAt := none, recaptchaToken := none,
    goals := JsVal.undef }

/-- Outcome of one POST request: the HTTP status and error message sent to
the caller, whether the mail transport send was invoked, the subject/html
handed to it, the returned message id, and what was logged for operators. -/
structure Outcome where
  status : Nat
  error : Option String
  sendAttempted : Bool
  subject : Option String
  html : Option String
  messageId : Option String
  logged : Option String
deriving DecidableEq, Repr

/-- A 400 rejection before any send is attempted. -/
def rejectA (msg : String) : Outcome :=
  ⟨400, some msg, false, none, none, none, none⟩

/-- Outcome of the reCAPTCHA verification call
(`src/unnamed/part_000` lines 59-75): the service reports success or
failure, or the call itself throws (network/parse error). -/
inductive CaptchaOutcome
  | ok
  | failed
  | verifyErr
deriving DecidableEq, Repr

/-- Contact subject, `src/unnamed/part_000` line 112: the name is
interpolated raw. -/
def contactSubject (body : Body) : String :=
  "📩 New Contact — " ++ jsStr body.name

/-- Quote subject, `src/unnamed/part_000` line 123: category, service and
fullName are interpolated raw (no `esc`). -/
def quoteSubject (body : Body) : String :=
  "🧾 New Quote — " ++ jsStr body.category ++ " / " ++ jsStr body.service
    ++ " — " ++ jsStr body.fullName

/-- Contact template, `src/unnamed/part_000` lines 113-120. -/
def contactHtml (body : Body) : String :=
  "\n        <h2 style=\"color:#14276d;margin:0 0 12px\">New Contact Message</h2>\n        <p><b>Name:</b> "
    ++ escO body.name
    ++ "</p>\n        <p><b>Email:</b> "
    ++ escO body.email
    ++ "</p>\n        <p><b>Phone:</b> "
    ++ esc (orD body.phone "N/A")
    ++ "</p>\n        <p><b>Message:</b><br>"
    ++ nl2br (escO body.message)
    ++ "</p>\n        "
    ++ (if truthy body.submittedAt then
          "<p style=\"color:#666\"><small>Submitted: " ++ escO body.submittedAt ++ "</small></p>"
        else "")
    ++ "\n      "

/-- Quote template, `src/unnamed/part_000` lines 124-137. -/
def quoteHtml (body : Body) : String :=
  "\n        <h2 style=\"color:#14276d;margin:0 0 12px\">New Quote Request</h2>\n        <p><b>Name:</b> "
    ++ escO body.fullName
    ++ "</p>\n        <p><b>Email:</b> "
    ++ escO body.email
    ++ "</p>\n        <p><b>Phone:</b> "
    ++ esc (orD body.phone "")
    ++ "</p>\n        "
    ++ (if truthy body.company then "<p><b>Company:</b> " ++ escO body.company ++ "</p>" else "")
    ++ "\n        <p><b>Category:</b> "
    ++ escO body.category
    ++ " — <b>Service:</b> "
    ++ escO body.service
    ++ "</p>\n        "
    ++ (if truthy body.budget then "<p><b>Budget:</b> " ++ escO body.budget ++ "</p>" else "")
    ++ "\n        "
    ++ (if truthy body.timeline then "<p><b>Timeline:</b> " ++ escO body.timeline ++ "</p>" else "")
    ++ "\n        <p><b>Brief:</b><br>"
    ++ nl2br (esc (orD body.brief ""))
    ++ "</p>\n        "
    ++ (match body.goals with
        | JsVal.arr (g :: gs) =>
            "<p><b>Goals:</b> " ++ String.intercalate ", " ((g :: gs).map esc) ++ "</p>"
        | _ => "")
    ++ "\n        "
    ++ (if truthy body.references then
          "<p><b>References:</b><br>" ++ nl2br (escO body.references) ++ "</p>"
        else "")
    ++ "\n        "
    ++ (if truthy body.submittedAt then
          "<p style=\"color:#666\"><small>Submitted: " ++ escO body.submittedAt ++ "</small></p>"
        else "")
    ++ "\n      "

/-- The `sendMail` call and its two outcomes,
`src/unnamed/part_000` lines 144-156: success responds 200 with the
message id; a transport error is logged and answered with 500 and the
fixed message "Failed to send email". -/
def sendA (send : Except String String) (subject html : String) : Outcome :=
  match send with
  | Except.ok msgId => ⟨200, none, true, some subject, some html, some msgId, none⟩
  | Except.error e => ⟨500, some "Failed to send email", true, some subject, some html, none, some e⟩

/-- Kind dispatch of the primary handler,
`src/unnamed/part_000` lines 107-140: `"contact"` checks
name/email/message and renders the contact template, `"quote"` renders the
quote template with no required-field check, and any other kind is
rejected with 400 "Unknown kind". -/
def handlerABranch (send : Except String String) (body : Body) : Outcome :=
  if body.kind = some "contact" then
    if !truthy body.name || !truthy body.email || !truthy body.message then
      rejectA "Missing required fields"
    else sendA send (contactSubject body) (contactHtml body)
  else if body.kind = some "quote" then
    sendA send (quoteSubject body) (quoteHtml body)
  else rejectA "Unknown kind"

/-- The primary handler, `src/unnamed/part_000` lines 30-157 (POST path):
missing kind rejects first; then, when a reCAPTCHA secret is configured,
a missing token, a failed verification, or a verification error each
reject with 400 before the transport is touched. -/
def handlerA (secret : Option String) (captcha : CaptchaOutcome)
    (send : Except String String) (body : Body) : Outcome :=
  if !truthy body.kind then rejectA "Invalid payload: missing kind"
  else if truthy secret then
    if !truthy body.recaptchaToken then rejectA "Missing reCAPTCHA token"
    else
      match captcha with
      | CaptchaOutcome.failed => rejectA "reCAPTCHA failed"
      | CaptchaOutcome.verifyErr => rejectA "reCAPTCHA verification error"
      | CaptchaOutcome.ok => handlerABranch send body
  else handlerABranch send body

/-- Subject of `src/api/notify.ts` line 44. -/
def notify1Subject (kind : Option String) : String :=
  if kind = some "quote" then "New Quote Request" else "New Contact Message"

/-- Template of `src/api/notify.ts` lines 31-37: user values are
interpolated with no escaping at all. -/
def notify1Html (body : Body) : String :=
  "\n      <h2>New "
    ++ (if body.kind = some "quote" then "Quote Request" else "Contact Message")
    ++ "</h2>\n      <p><strong>Name:</strong> "
    ++ jsStr body.name
    ++ "</p>\n      <p><strong>Email:</strong> "
    ++ jsStr body.email
    ++ "</p>\n      <p><strong>Phone:</strong> "
    ++ orD body.phone "N/A"
    ++ "</p>\n      <p><strong>Message:</strong><br/>"
    ++ orD body.message "(No message provided)"
    ++ "</p>\n    "

/-- The first handler of `src/api/notify.ts` (lines 5-54, POST path):
rejects when kind, name or email is falsy; on a transport error it logs
the error and returns 500 with `err.message` itself as the error field. -/
def notify1 (send : Except String String) (body : Body) : Outcome :=
  if !truthy body.kind || !truthy body.name || !truthy body.email then
    ⟨400, some "Invalid request body", false, none, none, none, none⟩
  else
    match send with
    | Except.ok msgId =>
        ⟨200, none, true, some (notify1Subject body.kind), some (notify1Html body), some msgId, none⟩
    | Except.error e =>
        ⟨500, some e, true, some (notify1Subject body.kind), some (notify1Html body), none, some e⟩

/-- `Array.isArray(v) ? v[0] : v` applied to one field value
(`src/unnamed/part_000` line 338, `src/api/notify.ts` line 85): an array
collapses to its first element (`undefined` when empty), everything else
is kept. -/
def collapseVal : JsVal → JsVal
  | JsVal.arr (s :: _) => JsVal.str s
  | JsVal.arr [] => JsVal.undef
  | v => v

/-- Multipart normalization loop, `src/unnamed/part_000` lines 337-339 and
`src/api/notify.ts` lines 83-86: every field is collapsed by
`collapseVal`; there is no exception for any field name. -/
def normalizeMultipart (fields : List (String × JsVal)) : List (String × JsVal) :=
  fields.map (fun kv => (kv.1, collapseVal kv.2))

/-- Property lookup on a flattened body object (`undefined` when the key
is missing). -/
def getF (body : List (String × JsVal)) (k : String) : JsVal :=
  (List.lookup k body).getD JsVal.undef

/-- JS truthiness of a `JsVal` (arrays are always truthy). -/
def jsTruthy : JsVal → Bool
  | JsVal.undef => false
  | JsVal.str s => !(s == "")
  | JsVal.arr _ => true

/-- JS template interpolation of a `JsVal` (an array prints comma-joined,
`undefined` prints as "undefined"). -/
def jsValStr : JsVal → String
  | JsVal.undef => "undefined"
  | JsVal.str s => s
  | JsVal.arr l => String.intercalate "," l

/-- JS `v || d` on a `JsVal`. -/
def jsOr (v : JsVal) (d : String) : String :=
  if jsTruthy v then jsValStr v else d

/-- JS `a || b || d` on `JsVal`s. -/
def jsOr2 (a b : JsVal) (d : String) : String :=
  if jsTruthy a then jsValStr a else jsOr b d

/-- JS `v?.replace(/\n/g, "<br>") || d` on a `JsVal`. -/
def briefLine (v : JsVal) (d : String) : String :=
  match v with
  | JsVal.str s => if s == "" then d else nl2br s
  | _ => d

/-- `parseJsonBody`, `src/unnamed/part_000` lines 295-307: the JSON.parse
outcome is abstracted as an `Option`; a parse failure is caught and
degrades to an empty field mapping, never raising to the caller. -/
def parseJsonBody (parsed : Option (List (String × JsVal))) : List (String × JsVal) :=
  parsed.getD []

/-- `contentType.startsWith(p)`. -/
def startsWithS (s p : String) : Bool :=
  p.data.isPrefixOf s.data

/-- Subject of the content-type dispatching handler,
`src/unnamed/part_000` lines 423-424. -/
def cSubject (body : List (String × JsVal)) : String :=
  if getF body "kind" = JsVal.str "quote" then "New Quote Request" else "New Contact Message"

/-- Template of the content-type dispatching handler,
`src/unnamed/part_000` lines 395-416 (no escaping; the attachment line is
outside the modelled properties). -/
def cHtml (body : List (String × JsVal)) : String :=
  "\n      <div style=\"font-family: Arial, sans-serif; color: #333; line-height: 1.6;\">\n        <h2 style=\"color: #fe2681;\">New "
    ++ (if getF body "kind" = JsVal.str "quote" then "Quote Request" else "Contact Message")
    ++ "</h2>\n        <p><strong>Name:</strong> "
    ++ jsOr2 (getF body "name") (getF body "fullName") "N/A"
    ++ "</p>\n        <p><strong>Email:</strong> "
    ++ jsValStr (getF body "email")
    ++ "</p>\n        <p><strong>Phone:</strong> "
    ++ jsOr (getF body "phone") "N/A"
    ++ "</p>\n        "
    ++ (if getF body "kind" = JsVal.str "quote" then
          "\n          <p><strong>Service:</strong> " ++ jsOr (getF body "service") "N/A"
            ++ "</p>\n          <p><strong>Budget:</strong> " ++ jsOr (getF body "budget") "N/A"
            ++ "</p>\n          <p><strong>Brief:</strong><br>" ++ briefLine (getF body "brief") "(none)"
            ++ "</p>\n        "
        else
          "\n          <p><strong>Message:</strong><br>" ++ briefLine (getF body "message") "(none)"
            ++ "</p>\n        ")
    ++ "\n      </div>\n    "

/-- The content-type dispatching handler, `src/unnamed/part_000`
lines 316-437 (POST path, no attachment): a multipart content type takes
the formidable fields through `normalizeMultipart`, everything else goes
through `parseJsonBody`; then kind and email are hard-required; a
transport error answers 500 with `err?.message || "Internal server
error"`. -/
def handlerC (contentType : String) (multipartFields : List (String × JsVal))
    (jsonParsed : Option (List (String × JsVal))) (send : Except String String) : Outcome :=
  let body :=
    if startsWithS contentType "multipart/form-data" then normalizeMultipart multipartFields
    else parseJsonBody jsonParsed
  if !jsTruthy (getF body "kind") || !jsTruthy (getF body "email") then
    ⟨400, some "Missing required fields", false, none, none, none, none⟩
  else
    match send with
    | Except.ok msgId => ⟨200, none, true, some (cSubject body), some (cHtml body), some msgId, none⟩
    | Except.error e =>
        ⟨500, some (if e == "" then "Internal server error" else e), true,
          some (cSubject body), some (cHtml body), none, some e⟩

/-- Goals line of the multipart handler's quote template,
`src/api/notify.ts` lines 141-145: an array value renders comma-joined,
anything else renders as `body.goals || "N/A"`. -/
def goalsLine (goals : JsVal) : String :=
  match goals with
  | JsVal.arr l => String.intercalate ", " l
  | v => jsOr v "N/A"

/-- Drop every binding of one key (used to compare "field present but
empty" with "field absent"). -/
def removeKey (k : String) (l : List (String × JsVal)) : List (String × JsVal) :=
  l.filter (fun kv => !(kv.1 == k))

/-- Concrete submission used to exhibit the unescaped interpolation in
`src/api/notify.ts`. -/
def c1Body : Body :=
  { emptyBody with
    kind := some "contact"
    name := some "Eve"
    email := some "eve@example.com"
    message := some "<script>alert(1)</script>" }

/-- Valid contact submission with an unknown kind value. -/
def c5Body : Body :=
  { emptyBody with
    kind := some "newsletter"
    name := some "Jane"
    email := some "jane@x.com"
    message := some "hi" }

/-- Valid contact submission used for the transport-failure outcome. -/
def c8Body : Body :=
  { emptyBody with
    kind := some "contact"
    name := some "Jo"
    email := some "jo@x.com"
    message := some "hi" }

/-- A transport error message as the SMTP library raises it. -/
def c8Err : String := "Invalid login: 535-5.7.8 Username and Password not accepted"

/-- Submission with newline-carrying free-text fields. -/
def c3Body : Body :=
  { emptyBody with
    kind := some "contact"
    name := some "Jane Doe"
    email := some "jane@x.com"
    message := some "Hello\nWorld"
    brief := some "line1\nline2"
    references := some "http://a\nhttp://b" }

theorem strAppendAssoc (a b c : String) : a ++ b ++ c = a ++ (b ++ c) := by
  apply String.ext
  simp [String.data_append, List.append_assoc]

theorem orD_some_empty (t : String) : orD (some t) "" = t := by
  by_cases h : t = "" <;> simp [orD, h]

theorem nl2brL_append (a b : List Char) : nl2brL (a ++ b) = nl2brL a ++ nl2brL b := by
  induction a with
  | nil => simp [nl2brL]
  | cons c cs ih => simp [nl2brL, ih]

theorem escChar_nl : escChar '\n' = ['\n'] := by decide

theorem nl2brL_escChar {c : Char} (h : c ≠ '\n') : nl2brL (escChar c) = escChar c := by
  unfold escChar
  by_cases h1 : c = '&'
  · simp [h1]; decide
  · by_cases h2 : c = '<'
    · simp [h1, h2]; decide
    · by_cases h3 : c = '>'
      · simp [h1, h2, h3]; decide
      · by_cases h4 : c = '"'
        · simp [h1, h2, h3, h4]; decide
        · by_cases h5 : c = '\''
          · simp [h1, h2, h3, h4, h5]; decide
          · simp [h1, h2, h3, h4, h5, nl2brL, h]

theorem splitNl_ne_nil (l : List Char) : splitNl l ≠ [] := by
  cases l with
  | nil => simp [splitNl]
  | cons c cs =>
    unfold splitNl
    by_cases h : c = '\n'
    · simp [h]
    · simp [h]
      cases hs : splitNl cs <;> simp

theorem joinBr_cons_append (a x : List Char) (ls : List (List Char)) :
    joinBr ((a ++ x) :: ls) = a ++ joinBr (x :: ls) := by
  cases ls with
  | nil => simp [joinBr]
  | cons h t => simp [joinBr, List.append_assoc]

/-- Escape-then-substitute: `nl2br` after `esc` yields exactly the escaped
newline-separated segments joined with the `<br>` marker. -/
theorem nl2brL_escL (l : List Char) :
    nl2brL (escL l) = joinBr ((splitNl l).map escL) := by
  induction l with
  | nil => simp [escL, nl2brL, splitNl, joinBr]
  | cons c cs ih =>
    by_cases h : c = '\n'
    · subst h
      obtain ⟨hd, tl, hs⟩ := List.exists_cons_of_ne_nil (splitNl_ne_nil cs)
      rw [show escL ('\n' :: cs) = '\n' :: escL cs by simp [escL, escChar_nl]]
      rw [show nl2brL ('\n' :: escL cs) = brData ++ nl2brL (escL cs) by simp [nl2brL]]
      rw [show splitNl ('\n' :: cs) = [] :: splitNl cs by simp [splitNl]]
      rw [hs]
      simp [joinBr, escL, ih, hs]
    · obtain ⟨hd, tl, hs⟩ := List.exists_cons_of_ne_nil (splitNl_ne_nil cs)
      rw [show escL (c :: cs) = escChar c ++ escL cs from rfl]
      rw [nl2brL_append, nl2brL_escChar h, ih, hs]
      rw [show splitNl (c :: cs) = (c :: hd) :: tl by simp [splitNl, h, hs]]
      simp only [List.map_cons]
      rw [show escL (c :: hd) = escChar c ++ escL hd from rfl, joinBr_cons_append]

/-- `nl2br` output never contains a literal newline. -/
theorem nl2brL_no_nl (l : List Char) : ¬ '\n' ∈ nl2brL l := by
  induction l with
  | nil => simp [nl2brL]
  | cons c cs ih =>
    unfold nl2brL
    by_cases h : c = '\n'
    · simp [h, ih]; decide
    · simp [h, ih]
      exact fun he => h he.symm

theorem collapseVal_ne_arr (v : JsVal) (l : List String) : collapseVal v ≠ JsVal.arr l := by
  cases v with
  | undef => simp [collapseVal]
  | str s => simp [collapseVal]
  | arr m => cases m <;> simp [collapseVal]

theorem lookup_normalize (fields : List (String × JsVal)) (k : String) :
    List.lookup k (normalizeMultipart fields) = (List.lookup k fields).map collapseVal := by
  induction fields with
  | nil => rfl
  | cons kv rest ih =>
    obtain ⟨a, b⟩ := kv
    by_cases h : (k == a)
    · simp [normalizeMultipart, List.lookup, h]
    · simp only [normalizeMultipart, List.map_cons] at *
      simp [List.lookup, h, ih]

theorem getF_normalize_ne_arr (fields : List (String × JsVal)) (k : String) (l : List String) :
    getF (normalizeMultipart fields) k ≠ JsVal.arr l := by
  rw [getF, lookup_normalize]
  cases h : List.lookup k fields with
  | none => simp
  | some v => simp [collapseVal_ne_arr]

theorem lookup_removeKey (k : String) (l : List (String × JsVal)) :
    List.lookup k (removeKey k l) = none := by
  induction l with
  | nil => rfl
  | cons kv rest ih =>
    obtain ⟨a, b⟩ := kv
    by_cases h : (a == k)
    · simp [removeKey, List.filter_cons, h] at *
      exact ih
    · have h2 : (k == a) = false := by
        rw [beq_eq_false_iff_ne]
        intro he
        rw [he] at h
        simp at h
      simp only [removeKey, List.filter_cons] at *
      simp [h, List.lookup, h2, ih]

set_option maxRecDepth 100000 in
/-- Claim C1: the spec requires every user-supplied text value to be
HTML-escaped before embedding.  The primary handler's templates do escape
(`contactHtml` embeds the escaped sequence and not the raw tag), but the
`src/api/notify.ts` renderer interpolates the raw message: its output
contains the unescaped `<script>` payload verbatim, violating the
invariant. -/
theorem claim1_unescaped_interpolation :
    hasSub (notify1Html c1Body).data "<script>alert(1)</script>".data = true
  ∧ hasSub (contactHtml c1Body).data "<script".data = false
  ∧ hasSub (contactHtml c1Body).data "&lt;script&gt;alert(1)&lt;/script&gt;".data = true := by
  refine ⟨?_, ?_, ?_⟩ <;> decide

/-- Claim C2: a request body without a kind field is answered with 400 and
an invalid/missing-payload error, and the mail transport is never invoked,
in both `handlerA` and `notify1`, regardless of the other fields. -/
theorem claim2_missing_kind (secret : Option String) (captcha : CaptchaOutcome)
    (send : Except String String) (body : Body) (h : body.kind = none) :
    handlerA secret captcha send body = rejectA "Invalid payload: missing kind"
  ∧ (handlerA secret captcha send body).sendAttempted = false
  ∧ (notify1 send body).status = 400
  ∧ (notify1 send body).error = some "Invalid request body"
  ∧ (notify1 send body).sendAttempted = false := by
  have hA : handlerA secret captcha send body = rejectA "Invalid payload: missing kind" := by
    simp [handlerA, h, truthy]
  have hN : notify1 send body = ⟨400, some "Invalid request body", false, none, none, none, none⟩ := by
    simp [notify1, h, truthy]
  refine ⟨hA, ?_, ?_, ?_, ?_⟩ <;> simp [hA, hN, rejectA]

/-- Witness for claim C2 at a concrete request. -/
theorem claim2_missing_kind_witness :
    handlerA none CaptchaOutcome.ok (Except.ok "id1") { emptyBody with email := some "a@b.com" }
      = rejectA "Invalid payload: missing kind" :=
  (claim2_missing_kind none CaptchaOutcome.ok (Except.ok "id1")
    { emptyBody with email := some "a@b.com" } rfl).1

/-- Claim C4 counterexample: the multipart normalization loop collapses a
list-valued goals field to its first value like any other field; it is not
preserved as a list. -/
theorem claim4_goals_collapsed :
    getF (normalizeMultipart [("goals", JsVal.arr ["SEO", "Ads"])]) "goals" = JsVal.str "SEO"
  ∧ ¬ getF (normalizeMultipart [("goals", JsVal.arr ["SEO", "Ads"])]) "goals"
      = JsVal.arr ["SEO", "Ads"] := by
  refine ⟨?_, ?_⟩ <;> decide

/-- Claim C4 (amended): multipart normalization collapses every
multi-valued field, goals included, to its first value (no normalized
field is ever an array); the renderer comma-joins goals only when it is
still an array, which only a JSON body can deliver. -/
theorem claim4_amended (fields : List (String × JsVal)) (k : String)
    (l : List String) (g : List String) :
    getF (normalizeMultipart fields) k ≠ JsVal.arr l
  ∧ goalsLine (JsVal.arr g) = String.intercalate ", " g :=
  ⟨getF_normalize_ne_arr fields k l, rfl⟩

/-- Claim C5 counterexample: the primary handler rejects an unknown
non-empty kind with 400 "Unknown kind" instead of processing it as a
Contact submission. -/
theorem claim5_unknown_kind_rejected :
    (handlerA none CaptchaOutcome.ok (Except.ok "id1") c5Body).status = 400
  ∧ (handlerA none CaptchaOutcome.ok (Except.ok "id1") c5Body).error = some "Unknown kind"
  ∧ (handlerA none CaptchaOutcome.ok (Except.ok "id1") c5Body).sendAttempted = false := by
  refine ⟨?_, ?_, ?_⟩ <;> decide

/-- Claim C5 (amended): `notify1` treats kind "quote" as Quote and any
other truthy kind as Contact, but the primary handler accepts only
"contact" and "quote" and rejects every other non-empty kind with 400
"Unknown kind". -/
theorem claim5_amended (captcha : CaptchaOutcome) (send : Except String String) (body : Body)
    (h1 : truthy body.kind = true) (h2 : ¬ body.kind = some "contact")
    (h3 : ¬ body.kind = some "quote") :
    handlerA none captcha send body = rejectA "Unknown kind"
  ∧ notify1Subject body.kind = "New Contact Message" := by
  constructor
  · have hn : truthy (none : Option String) = false := rfl
    simp [handlerA, h1, hn, handlerABranch, h2, h3]
  · simp [notify1Subject, h3]

/-- Witness for the amended claim C5. -/
theorem claim5_amended_witness :
    handlerA none CaptchaOutcome.ok (Except.ok "id1") { emptyBody with kind := some "newsletter" }
      = rejectA "Unknown kind" :=
  (claim5_amended CaptchaOutcome.ok (Except.ok "id1") { emptyBody with kind := some "newsletter" }
    (by decide) (by decide) (by decide)).1

/-- Claim C8: on a transport failure the primary handler logs the original
error and answers 500 with the fixed opaque message, but `notify1` copies
the raw transport error message into the response it sends to the caller,
leaking internal exception detail. -/
theorem claim8_error_leak :
    (notify1 (Except.error c8Err) c8Body).status = 500
  ∧ (notify1 (Except.error c8Err) c8Body).error = some c8Err
  ∧ ¬ (notify1 (Except.error c8Err) c8Body).error = some "Failed to send email"
  ∧ (handlerA none CaptchaOutcome.ok (Except.error c8Err) c8Body).status = 500
  ∧ (handlerA none CaptchaOutcome.ok (Except.error c8Err) c8Body).error
      = some "Failed to send email"
  ∧ (handlerA none CaptchaOutcome.ok (Except.error c8Err) c8Body).logged = some c8Err := by
  refine ⟨?_, ?_, ?_, ?_, ?_, ?_⟩ <;> decide

/-- Claim C3: free-text values (message, brief, references) are escaped
first and then newline-substituted: the rendered bodies embed
`nl2br (esc v)`, which equals the escaped newline-separated segments of v
joined by the `<br>` marker, and contains no literal newline from v. -/
theorem claim3_newline_breaks (body : Body) (s t r : String)
    (hm : body.message = some s) (hb : body.brief = some t)
    (hr : body.references = some r) (hr0 : ¬ r = "") :
    (∃ p q, contactHtml body = p ++ (nl2br (esc s) ++ q))
  ∧ (∃ p q, quoteHtml body = p ++ (nl2br (esc t) ++ q))
  ∧ (∃ p q, quoteHtml body = p ++ (nl2br (esc r) ++ q))
  ∧ (∀ u : String, (nl2br (esc u)).data = joinBr ((splitNl u.data).map escL))
  ∧ (∀ u : String, ¬ '\n' ∈ (nl2br (esc u)).data) := by
  refine ⟨?_, ?_, ?_, fun u => nl2brL_escL u.data, fun u => nl2brL_no_nl (escL u.data)⟩
  · refine ⟨"\n        <h2 style=\"color:#14276d;margin:0 0 12px\">New Contact Message</h2>\n        <p><b>Name:</b> "
        ++ escO body.name
        ++ "</p>\n        <p><b>Email:</b> "
        ++ escO body.email
        ++ "</p>\n        <p><b>Phone:</b> "
        ++ esc (orD body.phone "N/A")
        ++ "</p>\n        <p><b>Message:</b><br>",
      "</p>\n        "
        ++ (if truthy body.submittedAt then
              "<p style=\"color:#666\"><small>Submitted: " ++ escO body.submittedAt ++ "</small></p>"
            else "")
        ++ "\n      ", ?_⟩
    simp only [contactHtml, hm, escO, Option.getD_some, strAppendAssoc]
  · refine ⟨"\n        <h2 style=\"color:#14276d;margin:0 0 12px\">New Quote Request</h2>\n        <p><b>Name:</b> "
        ++ escO body.fullName
        ++ "</p>\n        <p><b>Email:</b> "
        ++ escO body.email
        ++ "</p>\n        <p><b>Phone:</b> "
        ++ esc (orD body.phone "")
        ++ "</p>\n        "
        ++ (if truthy body.company then "<p><b>Company:</b> " ++ escO body.company ++ "</p>" else "")
        ++ "\n        <p><b>Category:</b> "
        ++ escO body.category
        ++ " — <b>Service:</b> "
        ++ escO body.service
        ++ "</p>\n        "
        ++ (if truthy body.budget then "<p><b>Budget:</b> " ++ escO body.budget ++ "</p>" else "")
        ++ "\n        "
        ++ (if truthy body.timeline then "<p><b>Timeline:</b> " ++ escO body.timeline ++ "</p>" else "")
        ++ "\n        <p><b>Brief:</b><br>",
      "</p>\n        "
        ++ (match body.goals with
            | JsVal.arr (g :: gs) =>
                "<p><b>Goals:</b> " ++ String.intercalate ", " ((g :: gs).map esc) ++ "</p>"
            | _ => "")
        ++ "\n        "
        ++ (if truthy body.references then
              "<p><b>References:</b><br>" ++ nl2br (escO body.references) ++ "</p>"
            else "")
        ++ "\n        "
        ++ (if truthy body.submittedAt then
              "<p style=\"color:#666\"><small>Submitted: " ++ escO body.submittedAt ++ "</small></p>"
            else "")
        ++ "\n      ", ?_⟩
    simp only [quoteHtml, hb, orD_some_empty, strAppendAssoc]
  · have ht : truthy body.references = true := by
      rw [hr]
      simp [truthy, hr0]
    refine ⟨"\n        <h2 style=\"color:#14276d;margin:0 0 12px\">New Quote Request</h2>\n        <p><b>Name:</b> "
        ++ escO body.fullName
        ++ "</p>\n        <p><b>Email:</b> "
        ++ escO body.email
        ++ "</p>\n        <p><b>Phone:</b> "
        ++ esc (orD body.phone "")
        ++ "</p>\n        "
        ++ (if truthy body.company then "<p><b>Company:</b> " ++ escO body.company ++ "</p>" else "")
        ++ "\n        <p><b>Category:</b> "
        ++ escO body.category
        ++ " — <b>Service:</b> "
        ++ escO body.service
        ++ "</p>\n        "
        ++ (if truthy body.budget then "<p><b>Budget:</b> " ++ escO body.budget ++ "</p>" else "")
        ++ "\n        "
        ++ (if truthy body.timeline then "<p><b>Timeline:</b> " ++ escO body.timeline ++ "</p>" else "")
        ++ "\n        <p><b>Brief:</b><br>"
        ++ nl2br (esc (orD body.brief ""))
        ++ "</p>\n        "
        ++ (match body.goals with
            | JsVal.arr (g :: gs) =>
                "<p><b>Goals:</b> " ++ String.intercalate ", " ((g :: gs).map esc) ++ "</p>"
            | _ => "")
        ++ "\n        "
        ++ "<p><b>References:</b><br>",
      "</p>"
        ++ "\n        "
        ++ (if truthy body.submittedAt then
              "<p style=\"color:#666\"><small>Submitted: " ++ escO body.submittedAt ++ "</small></p>"
            else "")
        ++ "\n      ", ?_⟩
    have ht2 : truthy (some r) = true := by simp [truthy, hr0]
    simp only [quoteHtml, hr, ht2, eq_self_iff_true, if_true, escO, Option.getD_some,
      strAppendAssoc]

/-- Witness for claim C3 at Scenario 1's message. -/
theorem claim3_newline_breaks_witness :
    ∃ p q, contactHtml c3Body = p ++ (nl2br (esc "Hello\nWorld") ++ q) :=
  (claim3_newline_breaks c3Body "Hello\nWorld" "line1\nline2" "http://a\nhttp://b"
    rfl rfl rfl (by decide)).1

/-- Claim C6: for any non-multipart content type (JSON or the fallback), a
body whose JSON parse fails degrades to an empty field mapping and is
rejected by the required-field check with 400 "Missing required fields" —
the same outcome as an explicitly empty mapping, not a distinct error kind
— and the transport is never invoked. -/
theorem claim6_malformed_json (contentType : String) (mp : List (String × JsVal))
    (send : Except String String)
    (h : startsWithS contentType "multipart/form-data" = false) :
    handlerC contentType mp none send
      = ⟨400, some "Missing required fields", false, none, none, none, none⟩
  ∧ handlerC contentType mp none send = handlerC contentType mp (some []) send
  ∧ (handlerC contentType mp none send).sendAttempted = false := by
  refine ⟨?_, ?_, ?_⟩ <;> simp [handlerC, h, parseJsonBody, getF, jsTruthy, List.lookup]

/-- Witness for claim C6 at a concrete JSON request. -/
theorem claim6_malformed_json_witness :
    handlerC "application/json" [] none (Except.ok "id1")
      = ⟨400, some "Missing required fields", false, none, none, none, none⟩ :=
  (claim6_malformed_json "application/json" [] (Except.ok "id1") (by decide)).1

/-- Claim C7 counterexample: the quote subject interpolates category,
service and sender name raw; with a category containing "&" the subject is
not the fixed prefix followed by the escaped values the claim asserts. -/
theorem claim7_subject_not_escaped :
    ¬ (quoteSubject
        { emptyBody with
          category := some "A&B"
          service := some "Design"
          fullName := some "Acme Co" }
      = "🧾 New Quote — " ++ esc "A&B" ++ " / " ++ esc "Design" ++ " — " ++ esc "Acme Co") := by
  decide

/-- Claim C7 (amended): the quote subject is the fixed prefix plus the raw
(unescaped) category, service and sender name; on Scenario 2's input it
contains "Web", "Design" and "Acme Co". -/
theorem claim7_amended (body : Body) (c s n : String)
    (h1 : body.category = some c) (h2 : body.service = some s) (h3 : body.fullName = some n) :
    quoteSubject body = "🧾 New Quote — " ++ c ++ " / " ++ s ++ " — " ++ n
  ∧ hasSub (quoteSubject
      { emptyBody with
        kind := some "quote"
        fullName := some "Acme Co"
        email := some "a@acme.com"
        category := some "Web"
        service := some "Design" }).data "Web".data = true
  ∧ hasSub (quoteSubject
      { emptyBody with
        kind := some "quote"
        fullName := some "Acme Co"
        email := some "a@acme.com"
        category := some "Web"
        service := some "Design" }).data "Design".data = true
  ∧ hasSub (quoteSubject
      { emptyBody with
        kind := some "quote"
        fullName := some "Acme Co"
        email := some "a@acme.com"
        category := some "Web"
        service := some "Design" }).data "Acme Co".data = true := by
  refine ⟨?_, by decide, by decide, by decide⟩
  simp [quoteSubject, h1, h2, h3, jsStr]

/-- Witness for the amended claim C7. -/
theorem claim7_amended_witness :
    quoteSubject
      { emptyBody with
        category := some "Web"
        service := some "Design"
        fullName := some "Acme Co" }
      = "🧾 New Quote — " ++ "Web" ++ " / " ++ "Design" ++ " — " ++ "Acme Co" :=
  (claim7_amended
    { emptyBody with
      category := some "Web"
      service := some "Design"
      fullName := some "Acme Co" }
    "Web" "Design" "Acme Co" rfl rfl rfl).1

/-- Claim C9: when a reCAPTCHA secret is configured (truthy) and the
request carries no truthy recaptchaToken, the primary handler answers 400
and never invokes the transport, whatever the other fields and the
verification or transport outcomes. -/
theorem claim9_captcha_token_absent (secret : Option String) (captcha : CaptchaOutcome)
    (send : Except String String) (body : Body)
    (h1 : truthy secret = true) (h2 : truthy body.recaptchaToken = false) :
    (handlerA secret captcha send body).status = 400
  ∧ (handlerA secret captcha send body).sendAttempted = false := by
  cases hk : truthy body.kind with
  | false => simp [handlerA, hk, rejectA]
  | true => simp [handlerA, hk, h1, h2, rejectA]

/-- Witness for claim C9. -/
theorem claim9_captcha_token_absent_witness :
    (handlerA (some "secret-key") CaptchaOutcome.ok (Except.ok "id1")
      { emptyBody with
        kind := some "contact"
        name := some "Jane"
        email := some "jane@x.com"
        message := some "hi" }).status = 400 :=
  (claim9_captcha_token_absent (some "secret-key") CaptchaOutcome.ok (Except.ok "id1")
    { emptyBody with
      kind := some "contact"
      name := some "Jane"
      email := some "jane@x.com"
      message := some "hi" }
    (by decide) (by decide)).1

/-- Claim C10: a required field that is present but equal to the empty
string is treated exactly like an absent one: `notify1` (kind, name,
email) and `handlerC` (kind, email) produce the same 400 rejection with no
transport call as when the field is removed. -/
theorem claim10_empty_equals_absent (send : Except String String) (body : Body)
    (rest : List (String × JsVal)) :
    (notify1 send { body with kind := some "" } = notify1 send { body with kind := none }
      ∧ (notify1 send { body with kind := some "" }).status = 400
      ∧ (notify1 send { body with kind := some "" }).sendAttempted = false)
  ∧ (notify1 send { body with name := some "" } = notify1 send { body with name := none }
      ∧ (notify1 send { body with name := some "" }).status = 400
      ∧ (notify1 send { body with name := some "" }).sendAttempted = false)
  ∧ (notify1 send { body with email := some "" } = notify1 send { body with email := none }
      ∧ (notify1 send { body with email := some "" }).status = 400
      ∧ (notify1 send { body with email := some "" }).sendAttempted = false)
  ∧ (handlerC "application/json" [] (some (("kind", JsVal.str "") :: rest)) send
        = handlerC "application/json" [] (some (removeKey "kind" rest)) send
      ∧ (handlerC "application/json" [] (some (("kind", JsVal.str "") :: rest)) send).status = 400
      ∧ (handlerC "application/json" [] (some (("kind", JsVal.str "") :: rest)) send).sendAttempted
          = false)
  ∧ (handlerC "application/json" [] (some (("email", JsVal.str "") :: rest)) send
        = handlerC "application/json" [] (some (removeKey "email" rest)) send
      ∧ (handlerC "application/json" [] (some (("email", JsVal.str "") :: rest)) send).status = 400
      ∧ (handlerC "application/json" [] (some (("email", JsVal.str "") :: rest)) send).sendAttempted
          = false) := by
  have hs : startsWithS "application/json" "multipart/form-data" = false := by decide
  refine ⟨⟨?_, ?_, ?_⟩, ⟨?_, ?_, ?_⟩, ⟨?_, ?_, ?_⟩, ⟨?_, ?_, ?_⟩, ⟨?_, ?_, ?_⟩⟩ <;>
    simp [notify1, truthy, handlerC, hs, parseJsonBody, getF, jsTruthy, List.lookup,
      lookup_removeKey]
